import Mathlib

/-!
Verification of the KACO inverter polling/backoff engine
(`custom_components/kaco/__init__.py` and `custom_components/kaco/const.py`).

The engine is embedded shallowly:
* machine/float arithmetic of the source is modelled over `ℚ` (all scaling
  computations of the source land far from rounding boundaries, so exact
  rational arithmetic agrees with the source's IEEE-double evaluation at
  every value used in a theorem below);
* the `random.uniform` jitter draw, the wall-clock `now`, and the outcomes
  of the HTTP fetches are inputs of the per-cycle step function;
* the mutable per-endpoint dict `node` is explicit state threaded through
  the step function.
-/

namespace Kaco

/-! ## CSV fields

A field of a semicolon-split CSV record.  The source applies Python's
`float(...)` / `int(...)` to such fields and also uses some of them as raw
strings (`cols[0]`, `cols[1]` of the daily file).  The lexical class of the
raw text is recorded alongside it: a text that parses as a Python int
parses as a float with the same value; a float literal parses only as a
float; anything else parses as neither. -/

inductive FieldVal where
  | intV (n : ℤ)
  | floatV (q : ℚ)
  | strV
  deriving DecidableEq, Repr

structure Field where
  raw : String
  val : FieldVal
  deriving DecidableEq, Repr

/-- Python `float(field)`: `none` models a raised `ValueError`. -/
def pyFloat (f : Field) : Option ℚ :=
  match f.val with
  | .intV n => some (n : ℚ)
  | .floatV q => some q
  | .strV => none

/-- Python `int(field)`: `none` models a raised `ValueError`. -/
def pyInt (f : Field) : Option ℤ :=
  match f.val with
  | .intV n => some n
  | .floatV _ => none
  | .strV => none

/-- `ds[i]` for an index the source only uses below the checked length;
the default is never reached under the source's length guards. -/
def dsGet (ds : List Field) (i : ℕ) : Field :=
  ds.getD i ⟨"", FieldVal.strV⟩

/-! ## Status lookup table (`const.py`, `t` / `t_map`)

The table `t` is a 168-entry list, initially all empty strings,
overwritten at the indices of `t_map`. -/

def t_map : List (ℕ × String) := [
  (0, "Initphase"),
  (1, "Waiting for feed-in"),
  (2, "Generator voltage too low"),
  (3, "Constant volt. control"),
  (4, "Feed-in mode"),
  (7, "Self test in progress"),
  (8, "Self test in progress"),
  (9, "Test mode"),
  (10, "Temperature in unit too high"),
  (11, "Power limitation"),
  (17, "Powador-protect disconnection"),
  (18, "Resid. current shutdown (AFI)"),
  (19, "Generator insulation fault"),
  (20, "Power rampup active"),
  (21, "Protect. shutdown overcurrent DC1"),
  (22, "Protect. shutdown overcurrent DC2"),
  (23, "Protect. shutdown overcurrent DC3"),
  (29, "Check ground fault fuse"),
  (30, "Voltage trans. fault"),
  (31, "RCD module error"),
  (32, "Self test error"),
  (33, "DC feed-in error"),
  (34, "Internal communication error"),
  (35, "Protect. shutdown SW"),
  (36, "Protect. shutdown HW"),
  (37, "Unknown Hardware"),
  (38, "Error: Generator Voltage too high"),
  (41, "Line failure: undervoltage L1"),
  (42, "Line failure: overvoltage L1"),
  (43, "Line failure: undervoltage L2"),
  (44, "Line failure: overvoltage L2"),
  (45, "Line failure: undervoltage L3"),
  (46, "Line failure: overvoltage L3"),
  (47, "Line failure: line-to-line voltage"),
  (48, "Line failure: underfreqency"),
  (49, "Line failure: overfrequency"),
  (50, "Line failure: average voltage"),
  (55, "DC link voltage error"),
  (56, "SPI Shutdown"),
  (57, "Waiting for reactivation"),
  (58, "Control board overtemperature"),
  (60, "Generator voltage too high"),
  (61, "External limit"),
  (62, "Standalone mode"),
  (63, "Power reduction P(f)"),
  (64, "Output current limiting"),
  (65, "ROCOF error"),
  (67, "Power section 1 error"),
  (68, "Power section 2 error"),
  (69, "Power section 3 error"),
  (70, "Fan 1 error"),
  (71, "Fan 2 error"),
  (72, "Fan 3 error"),
  (73, "Grid failure: Islanding"),
  (74, "External reactive power request"),
  (78, "Resid. current shutdown (AFI)"),
  (79, "Insulation measurement"),
  (80, "Insulation meas. not possible"),
  (81, "Protect. shutdown grid voltage L1"),
  (82, "Protect. shutdown grid voltage L2"),
  (83, "Protect. shutdown grid voltage L3"),
  (84, "Protect. shutdown overv. DC link"),
  (85, "Protect. shutdown underv. DC link"),
  (86, "Protect. shutdown unbal. DC link"),
  (87, "Protect. shutdown overcurrent L1"),
  (88, "Protect. shutdown overcurrent L2"),
  (89, "Protect. shutdown overcurrent L3"),
  (90, "Protect. shutdown voltage drop 5V"),
  (91, "Protect. shutdown voltage drop 2.5V"),
  (92, "Protect. shutdown voltage drop 1.5V"),
  (93, "Self test error buffer 1"),
  (94, "Self test error buffer 2"),
  (95, "Self test error relay 1"),
  (96, "Self test error relay 2"),
  (97, "Protect. shutdown HW overcurrent"),
  (98, "Protect. shutdown HW gate driver"),
  (99, "Protect. shutdown HW buffer-enable"),
  (100, "Protect. shutdown HW overtemperature"),
  (101, "Plausibility fault temperature"),
  (102, "Plausibility fault efficiency"),
  (103, "Plausibility fault DC link"),
  (104, "Plausibility fault RCD module"),
  (105, "Plausibility fault relay"),
  (106, "Plausibility fault DCDC converter"),
  (108, "Line failure: overvoltage L1"),
  (109, "Line failure: overvoltage L2"),
  (110, "Line failure: overvoltage L3"),
  (111, "Line failure: undervoltage L1"),
  (112, "Line failure: undervoltage L2"),
  (113, "Line failure: undervoltage L3"),
  (114, "Communication error DC/DC"),
  (115, "Negative DC current 1"),
  (116, "Negative DC current 2"),
  (117, "Negative DC current 3"),
  (118, "DC overvoltage 1"),
  (119, "DC overvoltage 2"),
  (120, "DC overvoltage 3"),
  (121, "Door opened"),
  (125, "Error relay control"),
  (126, "Error RCD measurement"),
  (127, "Error AC voltage measurement"),
  (128, "Error internal memory 1"),
  (129, "Power reduction P(U)"),
  (130, "Self-test error AFCI module"),
  (131, "Arc detected on DC1"),
  (132, "Arc detected on DC2"),
  (133, "Arc detected on DC3"),
  (134, "AFCI power supply critical"),
  (135, "Internal AFCI ADC failed"),
  (136, "AFCI algorithm failed"),
  (138, "AFCI parameters corrupted"),
  (139, "Error external memory 1"),
  (140, "Not enough AFCI DC inputs"),
  (141, "Error controller output pin"),
  (142, "AFCI activation failed"),
  (148, "Error external memory 1"),
  (149, "Communication error AFCI module"),
  (150, "Protect. shutdown voltage drop 1.65V"),
  (151, "Input current limitation DC1"),
  (152, "Input current limitation DC2"),
  (153, "Input current limitation DC3"),
  (154, "Input power limitation DC1"),
  (155, "Input power limitation DC2"),
  (156, "Input power limitation DC3"),
  (160, "Failure: Grid relay L1"),
  (161, "Failure: Grid relay L2"),
  (162, "Failure: Grid relay L3"),
  (163, "Failure: Grid relay N"),
  (164, "Failure: Filter relay L1"),
  (165, "Failure: Filter relay L2"),
  (166, "Failure: Filter relay L3"),
  (167, "Failure: Filter relay N")]

def t : List String :=
  t_map.foldl (fun acc p => acc.set p.1 p.2) (List.replicate 168 "")

/-- Python list indexing `xs[i]` with an `int` index: a negative index
counts from the end; an index out of range raises `IndexError` (`none`). -/
def pyListGet (xs : List String) (i : ℤ) : Option String :=
  let j := if i < 0 then i + (xs.length : ℤ) else i
  if 0 ≤ j ∧ j < (xs.length : ℤ) then xs.get? j.toNat else none

/-! ## Python rounding

Python `round` rounds half to even (banker's rounding).  Every value any
theorem below feeds to these functions has a reduced denominator different
from 2 after the decimal shift, so no tie can occur and half-to-even agrees
with the IEEE-double evaluation performed by the source. -/

def roundHalfEven (q : ℚ) : ℤ :=
  if q - ⌊q⌋ < 1/2 then ⌊q⌋
  else if 1/2 < q - ⌊q⌋ then ⌊q⌋ + 1
  else if ⌊q⌋ % 2 = 0 then ⌊q⌋ else ⌊q⌋ + 1

/-- Python `round(x, 3)`. -/
def pyRound3 (q : ℚ) : ℚ := (roundHalfEven (q * 1000) : ℚ) / 1000

/-! ## Scaling (`__init__.py` lines 239-254) -/

def scaleVolt (q : ℚ) : ℚ := pyRound3 (q / (65535 / 1600))

def scaleCurr (q : ℚ) : ℚ := pyRound3 (q / (65535 / 200))

def scalePower (q : ℚ) : ℚ := (roundHalfEven (q / (65535 / 100000)) : ℚ)

/-! ## Snapshot (the `values` dict) and per-endpoint state (the `node` dict) -/

/-- The `values["extra"]` sub-dict.  `max_power`, `serialno` and `model` are
always present (they are `setdefault`-ed whenever the snapshot is
bootstrapped); the remaining keys are absent (`none`) until first written. -/
structure Extra where
  max_power : ℚ
  serialno : String
  model : String
  last_kWh_Update : Option ℚ
  last_updated : Option ℚ
  temp : Option ℚ
  status : Option String
  status_code : Option ℤ
  deriving DecidableEq, Repr

/-- The published measurement snapshot (the `values` dict).  The eleven
electrical keys and `energyToday` are absent (`none`) until first written. -/
structure Snapshot where
  extra : Extra
  generatorVoltage1 : Option ℚ
  generatorVoltage2 : Option ℚ
  generatorCurrent1 : Option ℚ
  generatorCurrent2 : Option ℚ
  gridVoltage1 : Option ℚ
  gridVoltage2 : Option ℚ
  gridVoltage3 : Option ℚ
  gridCurrent1 : Option ℚ
  gridCurrent2 : Option ℚ
  gridCurrent3 : Option ℚ
  currentPower : Option ℚ
  energyToday : Option ℚ
  deriving DecidableEq, Repr

def defaultExtra : Extra :=
  { max_power := 0, serialno := "no_serial", model := "no_model",
    last_kWh_Update := none, last_updated := none, temp := none,
    status := none, status_code := none }

def emptySnapshot : Snapshot :=
  { extra := defaultExtra,
    generatorVoltage1 := none, generatorVoltage2 := none,
    generatorCurrent1 := none, generatorCurrent2 := none,
    gridVoltage1 := none, gridVoltage2 := none, gridVoltage3 := none,
    gridCurrent1 := none, gridCurrent2 := none, gridCurrent3 := none,
    currentPower := none, energyToday := none }

/-- `_bootstrap_defaults`: ensure the three default keys of `extra`.
In this embedding a stored snapshot always carries those keys (they are set
when the node is created and never deleted), so the `setdefault` calls are
the identity on an existing snapshot and build the defaults on a missing
one.  Note the source returns the *same* dict object it was given — it does
not copy. -/
def _bootstrap_defaults : Option Snapshot → Snapshot
  | none => emptySnapshot
  | some v => v

/-- The per-endpoint mutable state held in `hass.data[DOMAIN][ip]`.
The write-only mirror keys `node["max_power"]`, `node["serialno"]` and
`node["energyToday"]` are caches never read back by the engine and are not
modelled. -/
structure Node where
  fail_count : ℕ
  work_interval : ℚ
  values : Snapshot
  deriving DecidableEq, Repr

/-! ## Backoff (`_apply_backoff`, lines 59-64) -/

def _MIN_INTERVAL : ℚ := 5
def _MAX_INTERVAL : ℚ := 120
def _BACKOFF_BASE : ℚ := 2
def _JITTER_FRACTION : ℚ := 15/100
def _RETRY_PER_POLL : ℕ := 1

/-- Python `min` on two rationals. -/
def pymin (a b : ℚ) : ℚ := if a ≤ b then a else b

/-- Python `max` on two rationals. -/
def pymax (a b : ℚ) : ℚ := if b ≤ a then a else b

/-- `_apply_backoff(current, fail_count)`.  The jitter multiplier
`1.0 + random.uniform(-_JITTER_FRACTION, _JITTER_FRACTION)` is passed as
the explicit input `jitter`.  `fail_count - 1` on `ℕ` coincides with the
source's `max(0, fail_count - 1)`. -/
def _apply_backoff (current : ℚ) (fail_count : ℕ) (jitter : ℚ) : ℚ :=
  let factor := _BACKOFF_BASE ^ (fail_count - 1)
  let base := pymin _MAX_INTERVAL (pymax _MIN_INTERVAL (current * factor))
  pymin _MAX_INTERVAL (pymax _MIN_INTERVAL (base * jitter))

/-! ## Endpoint configuration and per-cycle inputs -/

/-- `if not ip or not isinstance(ip, str) or not ip.strip():` —
the address is blank when missing, empty, or all whitespace
(`strip` yields a nonempty string exactly when some char is not
whitespace). -/
def ipBlank : Option String → Bool
  | none => true
  | some s => s.data.all Char.isWhitespace

/-- Immutable endpoint configuration: address, base poll interval
(`float(config[CONF_INTERVAL])`), energy refresh interval
(`float(config[CONF_KWH_INTERVAL])`). -/
structure Endpoint where
  ip : Option String
  base_interval : ℚ
  kwh_interval : ℚ

/-- Outcome of the daily-file GET, when one is made: `err` is a timeout or
any exception during the request or body read; `resp` carries the HTTP
status, the decoded body length, and the body split on CR with each line
split on `;` and lexed. -/
inductive DayOutcome where
  | err : DayOutcome
  | resp (status : ℕ) (textLen : ℕ) (lines : List (List Field)) : DayOutcome
  deriving DecidableEq, Repr

/-- Inputs consumed by one poll cycle: the wall clock, the outcome of each
realtime attempt (`none` = timeout or request error, `some parts` = body
split on `;`), the daily-file outcome (consumed only if that fetch is
made), and the jitter draw (consumed only on the failure path). -/
structure CycleInput where
  now : ℚ
  rtAttempts : List (Option (List Field))
  dayFetch : DayOutcome
  jitter : ℚ
  deriving DecidableEq, Repr

/-! ## The poll cycle (`async_get_datas`, lines 179-337) -/

/-- One realtime attempt yields a record only if it split into exactly 14
fields (lines 211-215). -/
def validRecord : Option (List Field) → Option (List Field)
  | none => none
  | some parts => if parts.length = 14 then some parts else none

/-- The retry loop (lines 206-219): up to `1 + _RETRY_PER_POLL` attempts,
stopping at the first valid record. -/
def firstValid (attempts : List (Option (List Field))) : Option (List Field) :=
  (attempts.take (1 + _RETRY_PER_POLL)).findSome? validRecord

/-- The parse/scale block of the success path (lines 236-257), applied in
source order.  Returns the snapshot as mutated so far and whether the block
ran to completion: `false` models an exception (`ValueError` from
`float`/`int`, or `IndexError` from the `t` lookup) escaping to the outer
`except Exception` handler, with the partially mutated snapshot as it
stood when the exception was raised. -/
def applyScaling (now : ℚ) (v0 : Snapshot) (ds : List Field) : Snapshot × Bool :=
  let v := { v0 with extra.last_updated := some now }
  match pyFloat (dsGet ds 1) with
  | none => (v, false)
  | some q1 =>
  let v := { v with generatorVoltage1 := some (scaleVolt q1) }
  match pyFloat (dsGet ds 2) with
  | none => (v, false)
  | some q2 =>
  let v := { v with generatorVoltage2 := some (scaleVolt q2) }
  match pyFloat (dsGet ds 6) with
  | none => (v, false)
  | some q6 =>
  let v := { v with generatorCurrent1 := some (scaleCurr q6) }
  match pyFloat (dsGet ds 7) with
  | none => (v, false)
  | some q7 =>
  let v := { v with generatorCurrent2 := some (scaleCurr q7) }
  match pyFloat (dsGet ds 3) with
  | none => (v, false)
  | some q3 =>
  let v := { v with gridVoltage1 := some (scaleVolt q3) }
  match pyFloat (dsGet ds 4) with
  | none => (v, false)
  | some q4 =>
  let v := { v with gridVoltage2 := some (scaleVolt q4) }
  match pyFloat (dsGet ds 5) with
  | none => (v, false)
  | some q5 =>
  let v := { v with gridVoltage3 := some (scaleVolt q5) }
  match pyFloat (dsGet ds 8) with
  | none => (v, false)
  | some q8 =>
  let v := { v with gridCurrent1 := some (scaleCurr q8) }
  match pyFloat (dsGet ds 9) with
  | none => (v, false)
  | some q9 =>
  let v := { v with gridCurrent2 := some (scaleCurr q9) }
  match pyFloat (dsGet ds 10) with
  | none => (v, false)
  | some q10 =>
  let v := { v with gridCurrent3 := some (scaleCurr q10) }
  match pyFloat (dsGet ds 12) with
  | none => (v, false)
  | some q12 =>
  let v := { v with extra.temp := some (q12 / 100) }
  match pyInt (dsGet ds 13) with
  | none => (v, false)
  | some n13 =>
  match pyListGet t n13 with
  | none => (v, false)
  | some s13 =>
  let v := { v with extra.status := some s13 }
  let v := { v with extra.status_code := some n13 }
  match pyFloat (dsGet ds 11) with
  | none => (v, false)
  | some q11 =>
  let p := scalePower q11
  let v := { v with currentPower := some p }
  let v := if v.extra.max_power < p then { v with extra.max_power := p } else v
  (v, true)

/-- Whether the parse/scale block runs to completion on a record:
every register parses and the status index is in range. -/
def scalingOk (ds : List Field) : Bool :=
  (pyFloat (dsGet ds 1)).isSome && (pyFloat (dsGet ds 2)).isSome &&
  (pyFloat (dsGet ds 6)).isSome && (pyFloat (dsGet ds 7)).isSome &&
  (pyFloat (dsGet ds 3)).isSome && (pyFloat (dsGet ds 4)).isSome &&
  (pyFloat (dsGet ds 5)).isSome && (pyFloat (dsGet ds 8)).isSome &&
  (pyFloat (dsGet ds 9)).isSome && (pyFloat (dsGet ds 10)).isSome &&
  (pyFloat (dsGet ds 12)).isSome &&
  (match pyInt (dsGet ds 13) with
   | none => false
   | some n13 => (pyListGet t n13).isSome) &&
  (pyFloat (dsGet ds 11)).isSome

/-- The energy refresh gate (lines 260-264): fetch the daily file when the
refresh interval has elapsed or `energyToday` was never populated.
`last_kWh_Update` is always present here — it is ensured at cycle start
(lines 199-202) — so the `none` branch is unreachable. -/
def needDay (now : ℚ) (kwh : ℚ) (v : Snapshot) : Bool :=
  (match v.extra.last_kWh_Update with
   | some lastU => decide (lastU + kwh ≤ now)
   | none => true)
  || v.energyToday.isNone

/-- The daily-file block (lines 265-304).  Every failure — timeout, request
error, non-200 status, short body, too few lines or columns, unparsable
energy column — is swallowed and leaves the snapshot unchanged.  The
config-entry serial persistence (lines 287-300) is host-framework glue and
outside the snapshot. -/
def applyDay (now : ℚ) (v : Snapshot) (d : DayOutcome) : Snapshot :=
  match d with
  | .err => v
  | .resp status textLen lines =>
    if status = 200 then
      if 10 < textLen then
        if 1 < lines.length then
          let cols := lines.getD 1 []
          if 4 < cols.length then
            match pyFloat (dsGet cols 4) with
            | none => v
            | some e =>
              { v with energyToday := some e,
                       extra.serialno := (dsGet cols 1).raw,
                       extra.model := (dsGet cols 0).raw,
                       extra.last_kWh_Update := some now }
          else v
        else v
      else v
    else v

/-- Result of one poll cycle: the updated node, the dict the coroutine
returned (always equal to the published snapshot), and whether the
realtime / daily resources were actually requested. -/
structure StepResult where
  node : Node
  returned : Snapshot
  didFetchRT : Bool
  didFetchDay : Bool
  deriving Repr

/-- The `last_kWh_Update` bootstrap at cycle start (lines 199-202): if the
key is absent, set it to `now - kwh_interval` so that the first successful
cycle refreshes the energy immediately. -/
def ensureKwh (now kwh : ℚ) (v : Snapshot) : Snapshot :=
  match v.extra.last_kWh_Update with
  | none => { v with extra.last_kWh_Update := some (now - kwh) }
  | some _ => v

/-- One poll cycle (`async_get_datas`).  Control flow in source order:
blank-address guard (lines 184-189); `last_kWh_Update` bootstrap
(lines 199-202); realtime retry loop; failure bookkeeping when no valid
record was obtained (lines 221-231); success bookkeeping (lines 234-235)
followed by parse/scale — an exception there falls into the outer
`except Exception` handler (lines 318-330), *after* the counter and
interval were already reset; gated daily fetch; publish. -/
def async_get_datas (ep : Endpoint) (node : Node) (inp : CycleInput) : StepResult :=
  let values := _bootstrap_defaults (some node.values)
  if ipBlank ep.ip then
    { node := { node with values := values }, returned := values,
      didFetchRT := false, didFetchDay := false }
  else
    let values := ensureKwh inp.now ep.kwh_interval values
    match firstValid inp.rtAttempts with
    | none =>
      let fc := node.fail_count + 1
      { node := { fail_count := fc,
                  work_interval := _apply_backoff node.work_interval fc inp.jitter,
                  values := values },
        returned := values, didFetchRT := true, didFetchDay := false }
    | some ds =>
      let res := applyScaling inp.now values ds
      if res.2 then
        let nd := needDay inp.now ep.kwh_interval res.1
        let v2 := if nd then applyDay inp.now res.1 inp.dayFetch else res.1
        { node := { fail_count := 0, work_interval := ep.base_interval,
                    values := v2 },
          returned := v2, didFetchRT := true, didFetchDay := nd }
      else
        { node := { fail_count := 0 + 1,
                    work_interval := _apply_backoff ep.base_interval (0 + 1) inp.jitter,
                    values := res.1 },
          returned := res.1, didFetchRT := true, didFetchDay := false }

/-- Node initialisation in `get_coordinator` (lines 169-175): zero
failures, the configured base interval verbatim, bootstrapped defaults. -/
def initNode (ep : Endpoint) : Node :=
  { fail_count := 0, work_interval := ep.base_interval,
    values := _bootstrap_defaults none }

/-- Run a sequence of poll cycles. -/
def runCycles (ep : Endpoint) (node : Node) : List CycleInput → Node
  | [] => node
  | inp :: rest => runCycles ep (async_get_datas ep node inp).node rest

/-- The daily-fetch decisions taken along a sequence of cycles. -/
def dayFetchFlags (ep : Endpoint) (node : Node) : List CycleInput → List Bool
  | [] => []
  | inp :: rest =>
    let r := async_get_datas ep node inp
    r.didFetchDay :: dayFetchFlags ep r.node rest

/-! ## Helper lemmas -/

theorem pymin_eq (a b : ℚ) : pymin a b = min a b := by
  rw [pymin, min_def]

theorem pymax_eq (a b : ℚ) : pymax a b = max a b := by
  unfold pymax
  rcases le_total b a with h | h
  · rw [if_pos h, max_eq_left h]
  · rcases eq_or_lt_of_le h with rfl | h2
    · simp
    · rw [if_neg (not_le.mpr h2), max_eq_right h]

/-- Whatever the inputs — any current interval, any failure count, any
jitter — the backoff result is clamped into `[5, 120]`. -/
theorem apply_backoff_mem (c : ℚ) (f : ℕ) (j : ℚ) :
    5 ≤ _apply_backoff c f j ∧ _apply_backoff c f j ≤ 120 := by
  unfold _apply_backoff
  rw [pymin_eq, pymax_eq]
  refine ⟨le_min (by norm_num [_MIN_INTERVAL, _MAX_INTERVAL]) ?_, ?_⟩
  · exact le_trans (by norm_num [_MIN_INTERVAL]) (le_max_left _ _)
  · exact le_trans (min_le_left _ _) (by norm_num [_MAX_INTERVAL])

/-- One clamped jitter step from a value already in `[5, 120]` returns at
least `0.85` times that value. -/
theorem clamp_step_lb (b j : ℚ) (hb5 : 5 ≤ b) (hb120 : b ≤ 120) (hj : 17/20 ≤ j) :
    17/20 * b ≤ min 120 (max 5 (b * j)) := by
  have h1 : 17/20 * b ≤ b * j := by
    rw [mul_comm (17/20 : ℚ) b]
    exact mul_le_mul_of_nonneg_left hj (by linarith)
  have h2 : 17/20 * b ≤ (120:ℚ) := by linarith
  exact le_min h2 (le_trans h1 (le_max_right _ _))

/-- The inner (pre-jitter) clamp of `_apply_backoff` is in `[5, 120]`. -/
theorem clamp_mem (x : ℚ) :
    5 ≤ min (120:ℚ) (max 5 x) ∧ min (120:ℚ) (max 5 x) ≤ 120 :=
  ⟨le_min (by norm_num) (le_max_left _ _), min_le_left _ _⟩

/-- Lower bound used for the backoff-growth argument: with jitter at least
`0.85`, one backoff step returns at least `0.85` times the pre-jitter
clamped value. -/
theorem apply_backoff_lb (c : ℚ) (f : ℕ) (j : ℚ) (hj : 17/20 ≤ j) :
    17/20 * min 120 (max 5 (c * 2 ^ (f - 1))) ≤ _apply_backoff c f j := by
  unfold _apply_backoff
  rw [pymin_eq, pymax_eq, pymin_eq, pymax_eq]
  simp only [_MIN_INTERVAL, _MAX_INTERVAL, _BACKOFF_BASE]
  exact clamp_step_lb _ j (clamp_mem (c * 2 ^ (f - 1))).1
    (clamp_mem (c * 2 ^ (f - 1))).2 hj

/-- `_apply_backoff` written with Mathlib `min`/`max`. -/
theorem apply_backoff_eq (c : ℚ) (f : ℕ) (j : ℚ) :
    _apply_backoff c f j
      = min 120 (max 5 (min 120 (max 5 (c * 2 ^ (f - 1))) * j)) := by
  unfold _apply_backoff
  rw [pymin_eq, pymax_eq, pymin_eq, pymax_eq]
  simp only [_MIN_INTERVAL, _MAX_INTERVAL, _BACKOFF_BASE]

/-- The completion flag of the parse/scale block depends only on the
record, not on the snapshot it mutates nor on the clock. -/
theorem applyScaling_snd (now : ℚ) (v : Snapshot) (ds : List Field) :
    (applyScaling now v ds).2 = scalingOk ds := by
  unfold applyScaling scalingOk
  cases pyFloat (dsGet ds 1) <;> simp
  cases pyFloat (dsGet ds 2) <;> simp
  cases pyFloat (dsGet ds 6) <;> simp
  cases pyFloat (dsGet ds 7) <;> simp
  cases pyFloat (dsGet ds 3) <;> simp
  cases pyFloat (dsGet ds 4) <;> simp
  cases pyFloat (dsGet ds 5) <;> simp
  cases pyFloat (dsGet ds 8) <;> simp
  cases pyFloat (dsGet ds 9) <;> simp
  cases pyFloat (dsGet ds 10) <;> simp
  cases pyFloat (dsGet ds 12) <;> simp
  cases pyInt (dsGet ds 13) <;> simp
  cases pyListGet t _ <;> simp
  cases pyFloat (dsGet ds 11) <;> simp

/-- The parse/scale block never touches `energyToday` nor
`last_kWh_Update`, complete or not. -/
theorem applyScaling_frame (now : ℚ) (v : Snapshot) (ds : List Field) :
    (applyScaling now v ds).1.energyToday = v.energyToday ∧
    (applyScaling now v ds).1.extra.last_kWh_Update = v.extra.last_kWh_Update := by
  unfold applyScaling
  cases pyFloat (dsGet ds 1) <;> simp
  cases pyFloat (dsGet ds 2) <;> simp
  cases pyFloat (dsGet ds 6) <;> simp
  cases pyFloat (dsGet ds 7) <;> simp
  cases pyFloat (dsGet ds 3) <;> simp
  cases pyFloat (dsGet ds 4) <;> simp
  cases pyFloat (dsGet ds 5) <;> simp
  cases pyFloat (dsGet ds 8) <;> simp
  cases pyFloat (dsGet ds 9) <;> simp
  cases pyFloat (dsGet ds 10) <;> simp
  cases pyFloat (dsGet ds 12) <;> simp
  cases pyInt (dsGet ds 13) <;> simp
  cases pyListGet t _ <;> simp
  cases pyFloat (dsGet ds 11) <;> simp
  split <;> simp

/-- `applyDay` never touches the electrical measurement fields nor the
temperature. -/
theorem applyDay_frame (now : ℚ) (v : Snapshot) (d : DayOutcome) :
    (applyDay now v d).generatorVoltage1 = v.generatorVoltage1 ∧
    (applyDay now v d).generatorVoltage2 = v.generatorVoltage2 ∧
    (applyDay now v d).generatorCurrent1 = v.generatorCurrent1 ∧
    (applyDay now v d).generatorCurrent2 = v.generatorCurrent2 ∧
    (applyDay now v d).gridVoltage1 = v.gridVoltage1 ∧
    (applyDay now v d).gridVoltage2 = v.gridVoltage2 ∧
    (applyDay now v d).gridVoltage3 = v.gridVoltage3 ∧
    (applyDay now v d).gridCurrent1 = v.gridCurrent1 ∧
    (applyDay now v d).gridCurrent2 = v.gridCurrent2 ∧
    (applyDay now v d).gridCurrent3 = v.gridCurrent3 ∧
    (applyDay now v d).currentPower = v.currentPower ∧
    (applyDay now v d).extra.temp = v.extra.temp := by
  cases d with
  | err => simp [applyDay]
  | resp status textLen lines =>
    simp only [applyDay]
    repeat' split
    all_goals simp

/-- On a cycle whose realtime fetch yields a record that parses and scales
to completion, the published snapshot is the scaled snapshot, optionally
passed through the daily-file block, and the bookkeeping is reset. -/
theorem success_cycle (ep : Endpoint) (node : Node) (inp : CycleInput) (ds : List Field)
    (hip : ipBlank ep.ip = false) (hfv : firstValid inp.rtAttempts = some ds)
    (hok : scalingOk ds = true) :
    (async_get_datas ep node inp).node.values
      = (if needDay inp.now ep.kwh_interval
            (applyScaling inp.now (ensureKwh inp.now ep.kwh_interval node.values) ds).1
         then applyDay inp.now
            (applyScaling inp.now (ensureKwh inp.now ep.kwh_interval node.values) ds).1
            inp.dayFetch
         else (applyScaling inp.now (ensureKwh inp.now ep.kwh_interval node.values) ds).1) ∧
    (async_get_datas ep node inp).node.fail_count = 0 ∧
    (async_get_datas ep node inp).node.work_interval = ep.base_interval ∧
    (async_get_datas ep node inp).didFetchDay
      = needDay inp.now ep.kwh_interval
          (applyScaling inp.now (ensureKwh inp.now ep.kwh_interval node.values) ds).1 := by
  simp [async_get_datas, _bootstrap_defaults, hip, hfv, applyScaling_snd, hok]

/-! ## Claims -/

/-- C2: for every failure count `f ≥ 1` and every current interval `c`,
with the jitter factor anywhere in `[1 - 0.15, 1 + 0.15]`, the value
returned by `_apply_backoff c f` lies in the closed interval `[5, 120]`,
including when `c` is below 5 or above 120. -/
theorem backoff_result_in_bounds (c j : ℚ) (f : ℕ) (hf : 1 ≤ f)
    (hj1 : 1 - _JITTER_FRACTION ≤ j) (hj2 : j ≤ 1 + _JITTER_FRACTION) :
    5 ≤ _apply_backoff c f j ∧ _apply_backoff c f j ≤ 120 :=
  apply_backoff_mem c f j

theorem backoff_result_in_bounds_witness :
    (1 ≤ 1 ∧ 1 - _JITTER_FRACTION ≤ (1:ℚ) ∧ (1:ℚ) ≤ 1 + _JITTER_FRACTION) ∧
    (5 ≤ _apply_backoff 3 1 1 ∧ _apply_backoff 3 1 1 ≤ 120) :=
  ⟨⟨le_refl 1, by norm_num [_JITTER_FRACTION], by norm_num [_JITTER_FRACTION]⟩,
   backoff_result_in_bounds 3 1 1 (le_refl 1)
     (by norm_num [_JITTER_FRACTION]) (by norm_num [_JITTER_FRACTION])⟩

/-- C9: a cycle invoked with an empty or blank endpoint address performs
no network fetch, returns the existing snapshot unchanged, and leaves the
failure counter and the poll interval exactly as they were. -/
theorem blank_address_cycle_inert (ep : Endpoint) (node : Node) (inp : CycleInput)
    (h : ipBlank ep.ip = true) :
    (async_get_datas ep node inp).didFetchRT = false ∧
    (async_get_datas ep node inp).didFetchDay = false ∧
    (async_get_datas ep node inp).node.values = node.values ∧
    (async_get_datas ep node inp).returned = node.values ∧
    (async_get_datas ep node inp).node.fail_count = node.fail_count ∧
    (async_get_datas ep node inp).node.work_interval = node.work_interval := by
  simp [async_get_datas, _bootstrap_defaults, h]

theorem blank_address_cycle_inert_witness :
    ipBlank (Endpoint.mk (some "   ") 20 120).ip = true ∧
    (async_get_datas (Endpoint.mk (some "   ") 20 120)
        (initNode (Endpoint.mk (some "   ") 20 120))
        (CycleInput.mk 0 [] DayOutcome.err 1)).didFetchRT = false ∧
    (async_get_datas (Endpoint.mk (some "   ") 20 120)
        (initNode (Endpoint.mk (some "   ") 20 120))
        (CycleInput.mk 0 [] DayOutcome.err 1)).didFetchDay = false ∧
    (async_get_datas (Endpoint.mk (some "   ") 20 120)
        (initNode (Endpoint.mk (some "   ") 20 120))
        (CycleInput.mk 0 [] DayOutcome.err 1)).node.values
      = (initNode (Endpoint.mk (some "   ") 20 120)).values ∧
    (async_get_datas (Endpoint.mk (some "   ") 20 120)
        (initNode (Endpoint.mk (some "   ") 20 120))
        (CycleInput.mk 0 [] DayOutcome.err 1)).returned
      = (initNode (Endpoint.mk (some "   ") 20 120)).values ∧
    (async_get_datas (Endpoint.mk (some "   ") 20 120)
        (initNode (Endpoint.mk (some "   ") 20 120))
        (CycleInput.mk 0 [] DayOutcome.err 1)).node.fail_count
      = (initNode (Endpoint.mk (some "   ") 20 120)).fail_count ∧
    (async_get_datas (Endpoint.mk (some "   ") 20 120)
        (initNode (Endpoint.mk (some "   ") 20 120))
        (CycleInput.mk 0 [] DayOutcome.err 1)).node.work_interval
      = (initNode (Endpoint.mk (some "   ") 20 120)).work_interval := by
  have hb : ipBlank (Endpoint.mk (some "   ") 20 120).ip = true := by decide
  have h := blank_address_cycle_inert (Endpoint.mk (some "   ") 20 120)
    (initNode (Endpoint.mk (some "   ") 20 120))
    (CycleInput.mk 0 [] DayOutcome.err 1) hb
  exact ⟨hb, h.1, h.2.1, h.2.2.1, h.2.2.2.1, h.2.2.2.2.1, h.2.2.2.2.2⟩

/-- C6: when every realtime attempt of a cycle fails to yield a 14-field
record, the cycle takes the failure path: none of the eleven electrical
measurement fields is mutated, the failure counter increments, and the
daily-energy resource is not fetched. -/
theorem invalid_records_failure_path (ep : Endpoint) (node : Node) (inp : CycleInput)
    (hip : ipBlank ep.ip = false)
    (hall : ∀ a ∈ inp.rtAttempts, validRecord a = none) :
    (async_get_datas ep node inp).node.values.generatorVoltage1 = node.values.generatorVoltage1 ∧
    (async_get_datas ep node inp).node.values.generatorVoltage2 = node.values.generatorVoltage2 ∧
    (async_get_datas ep node inp).node.values.generatorCurrent1 = node.values.generatorCurrent1 ∧
    (async_get_datas ep node inp).node.values.generatorCurrent2 = node.values.generatorCurrent2 ∧
    (async_get_datas ep node inp).node.values.gridVoltage1 = node.values.gridVoltage1 ∧
    (async_get_datas ep node inp).node.values.gridVoltage2 = node.values.gridVoltage2 ∧
    (async_get_datas ep node inp).node.values.gridVoltage3 = node.values.gridVoltage3 ∧
    (async_get_datas ep node inp).node.values.gridCurrent1 = node.values.gridCurrent1 ∧
    (async_get_datas ep node inp).node.values.gridCurrent2 = node.values.gridCurrent2 ∧
    (async_get_datas ep node inp).node.values.gridCurrent3 = node.values.gridCurrent3 ∧
    (async_get_datas ep node inp).node.values.currentPower = node.values.currentPower ∧
    (async_get_datas ep node inp).node.fail_count = node.fail_count + 1 ∧
    (async_get_datas ep node inp).didFetchDay = false := by
  have hfv : firstValid inp.rtAttempts = none := by
    unfold firstValid
    rw [List.findSome?_eq_none_iff]
    exact fun a ha => hall a (List.take_subset _ _ ha)
  cases h : node.values.extra.last_kWh_Update <;>
    simp [async_get_datas, _bootstrap_defaults, ensureKwh, hip, hfv, h]

/-- A field whose raw text is an integer literal. -/
def intReg (n : ℤ) : Field := ⟨"", FieldVal.intV n⟩

/-- A field whose raw text parses as neither int nor float. -/
def strReg (s : String) : Field := ⟨s, FieldVal.strV⟩

/-- A typical configured endpoint (the defaults: base 20 s, energy 120 s). -/
def epDefault : Endpoint := ⟨some "192.168.178.112", 20, 120⟩

theorem invalid_records_failure_path_witness :
    (ipBlank epDefault.ip = false ∧
      (∀ a ∈ [none, some [intReg 1]], validRecord a = none)) ∧
    ((async_get_datas epDefault (initNode epDefault)
        (CycleInput.mk 0 [none, some [intReg 1]] DayOutcome.err 1)).node.fail_count
      = (initNode epDefault).fail_count + 1 ∧
     (async_get_datas epDefault (initNode epDefault)
        (CycleInput.mk 0 [none, some [intReg 1]] DayOutcome.err 1)).didFetchDay = false) := by
  have hip : ipBlank epDefault.ip = false := by decide
  have hall : ∀ a ∈ [none, some [intReg 1]], validRecord a = none := by decide
  have h := invalid_records_failure_path epDefault (initNode epDefault)
    (CycleInput.mk 0 [none, some [intReg 1]] DayOutcome.err 1) hip hall
  exact ⟨⟨hip, hall⟩, h.2.2.2.2.2.2.2.2.2.2.2⟩

/-- A 14-field realtime record whose field 8 (first grid current) is not
numeric: `float(ds[8])` raises after fields 1-7 and 3-5 were already
written into the snapshot. -/
def dsPartial : List Field :=
  [strReg "x", intReg 32768, intReg 32768, intReg 32768, intReg 32768,
   intReg 32768, intReg 16384, intReg 16384, strReg "abc", intReg 16384,
   intReg 16384, intReg 32768, intReg 2500, intReg 4]

/-- C1 counterexample: a poll cycle that ends in failure (an unhandled
exception while scaling field 8 of a valid 14-field fetch) publishes a
**partially** mutated snapshot — the generator/grid voltages are updated
while the grid currents and the power are stale — so the snapshot visible
to consumers is not the snapshot from before the cycle. -/
theorem parse_exception_partial_snapshot_cex :
    (async_get_datas epDefault (initNode epDefault)
        (CycleInput.mk 0 [some dsPartial] DayOutcome.err 1)).node.fail_count = 1 ∧
    (async_get_datas epDefault (initNode epDefault)
        (CycleInput.mk 0 [some dsPartial] DayOutcome.err 1)).node.values.generatorVoltage1
      = some 800.012 ∧
    (async_get_datas epDefault (initNode epDefault)
        (CycleInput.mk 0 [some dsPartial] DayOutcome.err 1)).node.values.gridCurrent1
      = none ∧
    (async_get_datas epDefault (initNode epDefault)
        (CycleInput.mk 0 [some dsPartial] DayOutcome.err 1)).node.values.currentPower
      = none ∧
    (async_get_datas epDefault (initNode epDefault)
        (CycleInput.mk 0 [some dsPartial] DayOutcome.err 1)).node.values
      ≠ (initNode epDefault).values := by
  have h1 : (async_get_datas epDefault (initNode epDefault)
      (CycleInput.mk 0 [some dsPartial] DayOutcome.err 1)).node.values.generatorVoltage1
      = some 800.012 := by
    simp [async_get_datas, initNode, _bootstrap_defaults, emptySnapshot, defaultExtra,
      firstValid, _RETRY_PER_POLL, validRecord, dsPartial, epDefault, ipBlank, ensureKwh,
      applyScaling, dsGet, pyFloat, pyInt, intReg, strReg]
    unfold scaleVolt pyRound3 roundHalfEven
    norm_num
  refine ⟨?_, h1, ?_, ?_, ?_⟩
  · simp [async_get_datas, initNode, _bootstrap_defaults, emptySnapshot, defaultExtra,
      firstValid, _RETRY_PER_POLL, validRecord, dsPartial, epDefault, ipBlank, ensureKwh,
      applyScaling, dsGet, pyFloat, pyInt, intReg, strReg]
  · simp [async_get_datas, initNode, _bootstrap_defaults, emptySnapshot, defaultExtra,
      firstValid, _RETRY_PER_POLL, validRecord, dsPartial, epDefault, ipBlank, ensureKwh,
      applyScaling, dsGet, pyFloat, pyInt, intReg, strReg]
  · simp [async_get_datas, initNode, _bootstrap_defaults, emptySnapshot, defaultExtra,
      firstValid, _RETRY_PER_POLL, validRecord, dsPartial, epDefault, ipBlank, ensureKwh,
      applyScaling, dsGet, pyFloat, pyInt, intReg, strReg]
  · intro heq
    have h2 := congrArg Snapshot.generatorVoltage1 heq
    rw [h1] at h2
    simp [initNode, _bootstrap_defaults, emptySnapshot] at h2

/-- C1 amended: the published snapshot is exactly the pre-cycle snapshot
for every cycle that fails with **no valid realtime record** (timeouts,
errors, wrong field counts — once the energy timestamp has been
initialised, which happens on the first non-blank cycle); a cycle that
fails with an unhandled parse/scale exception after a valid fetch instead
publishes the partially mutated record, because the snapshot is mutated in
place and not copied. -/
theorem no_record_failure_preserves_snapshot (ep : Endpoint) (node : Node)
    (inp : CycleInput) (u : ℚ)
    (hkwh : node.values.extra.last_kWh_Update = some u)
    (hfv : firstValid inp.rtAttempts = none) :
    (async_get_datas ep node inp).node.values = node.values ∧
    (async_get_datas ep node inp).returned = node.values := by
  by_cases hip : ipBlank ep.ip
  · simp [async_get_datas, _bootstrap_defaults, hip]
  · simp [async_get_datas, _bootstrap_defaults, ensureKwh, hip, hfv, hkwh]

/-- A node as it stands after at least one non-blank cycle: the energy
refresh timestamp is present. -/
def nodeKwh : Node :=
  { fail_count := 2, work_interval := 30,
    values := { emptySnapshot with extra.last_kWh_Update := some 0 } }

theorem no_record_failure_preserves_snapshot_witness :
    (nodeKwh.values.extra.last_kWh_Update = some 0 ∧
      firstValid [none, none] = none) ∧
    ((async_get_datas epDefault nodeKwh
        (CycleInput.mk 60 [none, none] DayOutcome.err 1)).node.values = nodeKwh.values ∧
     (async_get_datas epDefault nodeKwh
        (CycleInput.mk 60 [none, none] DayOutcome.err 1)).returned = nodeKwh.values) := by
  have h1 : nodeKwh.values.extra.last_kWh_Update = some 0 := rfl
  have h2 : firstValid [none, none] = (none : Option (List Field)) := by decide
  exact ⟨⟨h1, h2⟩, no_record_failure_preserves_snapshot epDefault nodeKwh
    (CycleInput.mk 60 [none, none] DayOutcome.err 1) 0 h1 h2⟩

/-- C3 counterexample: with a configured base interval of 300 s — any
value is accepted by the config schema — the interval stored at node
initialisation is 300, outside `[5, 120]`; a successful cycle stores it
again verbatim. -/
theorem init_interval_out_of_bounds_cex :
    (initNode (Endpoint.mk (some "192.168.178.112") 300 120)).work_interval = 300 ∧
    ¬((initNode (Endpoint.mk (some "192.168.178.112") 300 120)).work_interval ≤ 120) := by
  constructor
  · rfl
  · norm_num [initNode]

/-- C3 amended: **provided the configured base interval lies in
`[5, 120]`**, the stored poll interval is within `[5, 120]` after
initialisation and after every sequence of cycles (the backoff result is
clamped; initialisation and success store the base verbatim). -/
theorem interval_bounds_invariant (ep : Endpoint) (inps : List CycleInput)
    (h5 : 5 ≤ ep.base_interval) (h120 : ep.base_interval ≤ 120) :
    5 ≤ (runCycles ep (initNode ep) inps).work_interval ∧
    (runCycles ep (initNode ep) inps).work_interval ≤ 120 := by
  have step : ∀ (node : Node) (inp : CycleInput), 5 ≤ node.work_interval →
      node.work_interval ≤ 120 →
      5 ≤ (async_get_datas ep node inp).node.work_interval ∧
      (async_get_datas ep node inp).node.work_interval ≤ 120 := by
    intro node inp hn5 hn120
    by_cases hip : ipBlank ep.ip
    · simpa [async_get_datas, _bootstrap_defaults, hip] using ⟨hn5, hn120⟩
    · cases hfv : firstValid inp.rtAttempts with
      | none =>
        simpa [async_get_datas, _bootstrap_defaults, hip, hfv] using
          apply_backoff_mem node.work_interval (node.fail_count + 1) inp.jitter
      | some ds =>
        cases hok : scalingOk ds with
        | true =>
          simpa [async_get_datas, _bootstrap_defaults, hip, hfv,
            applyScaling_snd, hok] using ⟨h5, h120⟩
        | false =>
          simpa [async_get_datas, _bootstrap_defaults, hip, hfv,
            applyScaling_snd, hok] using
            apply_backoff_mem ep.base_interval 1 inp.jitter
  have main : ∀ (l : List CycleInput) (node : Node), 5 ≤ node.work_interval →
      node.work_interval ≤ 120 →
      5 ≤ (runCycles ep node l).work_interval ∧
      (runCycles ep node l).work_interval ≤ 120 := by
    intro l
    induction l with
    | nil => intro node hx hy; exact ⟨hx, hy⟩
    | cons i rest ih =>
      intro node hx hy
      have h := step node i hx hy
      exact ih _ h.1 h.2
  exact main inps (initNode ep) (by simpa [initNode]) (by simpa [initNode])

theorem interval_bounds_invariant_witness :
    ((5:ℚ) ≤ epDefault.base_interval ∧ epDefault.base_interval ≤ 120) ∧
    (5 ≤ (runCycles epDefault (initNode epDefault)
        [CycleInput.mk 0 [none, none] DayOutcome.err 1]).work_interval ∧
     (runCycles epDefault (initNode epDefault)
        [CycleInput.mk 0 [none, none] DayOutcome.err 1]).work_interval ≤ 120) := by
  have h5 : (5:ℚ) ≤ epDefault.base_interval := by norm_num [epDefault]
  have h120 : epDefault.base_interval ≤ 120 := by norm_num [epDefault]
  exact ⟨⟨h5, h120⟩, interval_bounds_invariant epDefault
    [CycleInput.mk 0 [none, none] DayOutcome.err 1] h5 h120⟩

/-- C4 counterexample: a cycle with five prior consecutive failures whose
realtime fetch succeeds but whose scaling raises leaves the counter at 1 —
the success path already reset it to 0 before the exception — not at the
pre-cycle value plus one (6), and the backoff is applied to the base
interval, not to the pre-cycle interval. -/
theorem parse_exception_failure_counter_cex :
    (async_get_datas epDefault (Node.mk 5 90 emptySnapshot)
        (CycleInput.mk 0 [some dsPartial] DayOutcome.err 1)).node.fail_count = 1 ∧
    (1:ℕ) ≠ (Node.mk 5 90 emptySnapshot).fail_count + 1 ∧
    (async_get_datas epDefault (Node.mk 5 90 emptySnapshot)
        (CycleInput.mk 0 [some dsPartial] DayOutcome.err 1)).node.work_interval
      = _apply_backoff epDefault.base_interval 1 1 ∧
    _apply_backoff epDefault.base_interval 1 1
      ≠ _apply_backoff (Node.mk 5 90 emptySnapshot).work_interval 6 1 := by
  refine ⟨?_, by decide, ?_, ?_⟩
  · simp [async_get_datas, _bootstrap_defaults, emptySnapshot, defaultExtra,
      firstValid, _RETRY_PER_POLL, validRecord, dsPartial, epDefault, ipBlank, ensureKwh,
      applyScaling, dsGet, pyFloat, pyInt, intReg, strReg]
  · simp [async_get_datas, _bootstrap_defaults, emptySnapshot, defaultExtra,
      firstValid, _RETRY_PER_POLL, validRecord, dsPartial, epDefault, ipBlank, ensureKwh,
      applyScaling, dsGet, pyFloat, pyInt, intReg, strReg]
  · rw [apply_backoff_eq, apply_backoff_eq]
    norm_num [epDefault]

/-- C4 amended: a cycle that fails with **no valid realtime record**
increments the counter by one and recomputes the interval from the
pre-cycle interval; a cycle that fails with an unhandled parse/scale
exception after a valid fetch ends with the counter at 1 and the interval
recomputed from the **base** interval, because the success path resets
both before the parse runs. -/
theorem failure_bookkeeping (ep : Endpoint) (node : Node) (inp : CycleInput)
    (hip : ipBlank ep.ip = false) :
    (firstValid inp.rtAttempts = none →
      (async_get_datas ep node inp).node.fail_count = node.fail_count + 1 ∧
      (async_get_datas ep node inp).node.work_interval
        = _apply_backoff node.work_interval (node.fail_count + 1) inp.jitter) ∧
    (∀ ds, firstValid inp.rtAttempts = some ds → scalingOk ds = false →
      (async_get_datas ep node inp).node.fail_count = 1 ∧
      (async_get_datas ep node inp).node.work_interval
        = _apply_backoff ep.base_interval 1 inp.jitter) := by
  constructor
  · intro hfv
    simp [async_get_datas, _bootstrap_defaults, hip, hfv]
  · intro ds hfv hok
    simp [async_get_datas, _bootstrap_defaults, hip, hfv, applyScaling_snd, hok]

theorem failure_bookkeeping_witness :
    (ipBlank epDefault.ip = false ∧
      firstValid [none, some dsPartial] = some dsPartial ∧
      scalingOk dsPartial = false) ∧
    ((async_get_datas epDefault nodeKwh
        (CycleInput.mk 0 [none, some dsPartial] DayOutcome.err 1)).node.fail_count = 1 ∧
     (async_get_datas epDefault nodeKwh
        (CycleInput.mk 0 [none, some dsPartial] DayOutcome.err 1)).node.work_interval
        = _apply_backoff epDefault.base_interval 1 1) := by
  have hip : ipBlank epDefault.ip = false := by decide
  have hfv : firstValid [none, some dsPartial] = some dsPartial := by decide
  have hok : scalingOk dsPartial = false := by decide
  exact ⟨⟨hip, hfv, hok⟩,
    (failure_bookkeeping epDefault nodeKwh
      (CycleInput.mk 0 [none, some dsPartial] DayOutcome.err 1) hip).2 dsPartial hfv hok⟩

/-- Overwriting entries preserves the length of the status table. -/
theorem foldl_set_length (l : List (ℕ × String)) (xs : List String) :
    (l.foldl (fun acc p => acc.set p.1 p.2) xs).length = xs.length := by
  induction l generalizing xs with
  | nil => rfl
  | cons p rest ih => simp [List.foldl_cons, ih, List.length_set]

/-- The status table has 168 entries. -/
theorem t_length : t.length = 168 := by
  rw [t, foldl_set_length, List.length_replicate]

/-- Every index in `[-168, 168)` hits the status table. -/
theorem pyListGet_t_some (i : ℤ) (hlo : -168 ≤ i) (hhi : i < 168) :
    ∃ s, pyListGet t i = some s := by
  have hget : ∀ (j : ℤ), 0 ≤ j → j < 168 → ∃ s, t.get? j.toNat = some s := by
    intro j h0 h1
    have hlt : j.toNat < t.length := by rw [t_length]; omega
    cases hg : t.get? j.toNat with
    | none =>
      rw [List.get?_eq_none] at hg
      omega
    | some s => exact ⟨s, rfl⟩
  have ht : (t.length : ℤ) = 168 := by rw [t_length]; norm_num
  unfold pyListGet
  by_cases hneg : i < 0
  · rw [if_pos hneg, ht, if_pos (by omega : (0:ℤ) ≤ i + 168 ∧ i + 168 < 168)]
    exact hget (i + 168) (by omega) (by omega)
  · rw [if_neg hneg, ht, if_pos (by omega : (0:ℤ) ≤ i ∧ i < 168)]
    exact hget i (by omega) (by omega)

/-- A 14-field realtime record of integer registers, in wire order. -/
def intRecord (f0 : Field) (r1 r2 r3 r4 r5 r6 r7 r8 r9 r10 r11 r12 n13 : ℤ) :
    List Field :=
  [f0, intReg r1, intReg r2, intReg r3, intReg r4, intReg r5, intReg r6,
   intReg r7, intReg r8, intReg r9, intReg r10, intReg r11, intReg r12,
   intReg n13]

/-- Whether or not the daily file is consulted, the electrical fields and
the temperature of the scaled snapshot survive. -/
theorem dayOrNot_frame (now : ℚ) (v : Snapshot) (d : DayOutcome) (nd : Bool) :
    (if nd then applyDay now v d else v).generatorVoltage1 = v.generatorVoltage1 ∧
    (if nd then applyDay now v d else v).generatorVoltage2 = v.generatorVoltage2 ∧
    (if nd then applyDay now v d else v).generatorCurrent1 = v.generatorCurrent1 ∧
    (if nd then applyDay now v d else v).generatorCurrent2 = v.generatorCurrent2 ∧
    (if nd then applyDay now v d else v).gridVoltage1 = v.gridVoltage1 ∧
    (if nd then applyDay now v d else v).gridVoltage2 = v.gridVoltage2 ∧
    (if nd then applyDay now v d else v).gridVoltage3 = v.gridVoltage3 ∧
    (if nd then applyDay now v d else v).gridCurrent1 = v.gridCurrent1 ∧
    (if nd then applyDay now v d else v).gridCurrent2 = v.gridCurrent2 ∧
    (if nd then applyDay now v d else v).gridCurrent3 = v.gridCurrent3 ∧
    (if nd then applyDay now v d else v).currentPower = v.currentPower ∧
    (if nd then applyDay now v d else v).extra.temp = v.extra.temp := by
  cases nd with
  | false => simp
  | true => simpa using applyDay_frame now v d

/-- C5 amended: on a successful realtime fetch of exactly 14 fields with
integer register values (and a status index in the table's range), the
published values equal the scaling formulas exactly: each voltage register
v yields round(v / (65535/1600), 3), each current register yields
round(raw / (65535/200), 3), power yields round(raw / (65535/100000))
with no decimals, and temperature yields raw / 100; raw register 32768
yields voltage 800.012 and power 50001 (see the witness). -/
theorem realtime_scaling_formulas (ep : Endpoint) (node : Node) (inp : CycleInput)
    (f0 : Field) (r1 r2 r3 r4 r5 r6 r7 r8 r9 r10 r11 r12 n13 : ℤ)
    (hip : ipBlank ep.ip = false)
    (hfv : firstValid inp.rtAttempts
      = some (intRecord f0 r1 r2 r3 r4 r5 r6 r7 r8 r9 r10 r11 r12 n13))
    (hlo : -168 ≤ n13) (hhi : n13 < 168) :
    (async_get_datas ep node inp).node.values.generatorVoltage1
      = some (pyRound3 ((r1:ℚ) / (65535 / 1600))) ∧
    (async_get_datas ep node inp).node.values.generatorVoltage2
      = some (pyRound3 ((r2:ℚ) / (65535 / 1600))) ∧
    (async_get_datas ep node inp).node.values.gridVoltage1
      = some (pyRound3 ((r3:ℚ) / (65535 / 1600))) ∧
    (async_get_datas ep node inp).node.values.gridVoltage2
      = some (pyRound3 ((r4:ℚ) / (65535 / 1600))) ∧
    (async_get_datas ep node inp).node.values.gridVoltage3
      = some (pyRound3 ((r5:ℚ) / (65535 / 1600))) ∧
    (async_get_datas ep node inp).node.values.generatorCurrent1
      = some (pyRound3 ((r6:ℚ) / (65535 / 200))) ∧
    (async_get_datas ep node inp).node.values.generatorCurrent2
      = some (pyRound3 ((r7:ℚ) / (65535 / 200))) ∧
    (async_get_datas ep node inp).node.values.gridCurrent1
      = some (pyRound3 ((r8:ℚ) / (65535 / 200))) ∧
    (async_get_datas ep node inp).node.values.gridCurrent2
      = some (pyRound3 ((r9:ℚ) / (65535 / 200))) ∧
    (async_get_datas ep node inp).node.values.gridCurrent3
      = some (pyRound3 ((r10:ℚ) / (65535 / 200))) ∧
    (async_get_datas ep node inp).node.values.currentPower
      = some ((roundHalfEven ((r11:ℚ) / (65535 / 100000)) : ℚ)) ∧
    (async_get_datas ep node inp).node.values.extra.temp
      = some ((r12:ℚ) / 100) := by
  obtain ⟨s13, hs13⟩ := pyListGet_t_some n13 hlo hhi
  have hok : scalingOk (intRecord f0 r1 r2 r3 r4 r5 r6 r7 r8 r9 r10 r11 r12 n13)
      = true := by
    simp [scalingOk, intRecord, dsGet, pyFloat, pyInt, intReg, hs13]
  obtain ⟨hv, -, -, -⟩ := success_cycle ep node inp _ hip hfv hok
  rw [hv]
  have hsc :
      (applyScaling inp.now (ensureKwh inp.now ep.kwh_interval node.values)
          (intRecord f0 r1 r2 r3 r4 r5 r6 r7 r8 r9 r10 r11 r12 n13)).1.generatorVoltage1
        = some (scaleVolt r1) ∧
      (applyScaling inp.now (ensureKwh inp.now ep.kwh_interval node.values)
          (intRecord f0 r1 r2 r3 r4 r5 r6 r7 r8 r9 r10 r11 r12 n13)).1.generatorVoltage2
        = some (scaleVolt r2) ∧
      (applyScaling inp.now (ensureKwh inp.now ep.kwh_interval node.values)
          (intRecord f0 r1 r2 r3 r4 r5 r6 r7 r8 r9 r10 r11 r12 n13)).1.gridVoltage1
        = some (scaleVolt r3) ∧
      (applyScaling inp.now (ensureKwh inp.now ep.kwh_interval node.values)
          (intRecord f0 r1 r2 r3 r4 r5 r6 r7 r8 r9 r10 r11 r12 n13)).1.gridVoltage2
        = some (scaleVolt r4) ∧
      (applyScaling inp.now (ensureKwh inp.now ep.kwh_interval node.values)
          (intRecord f0 r1 r2 r3 r4 r5 r6 r7 r8 r9 r10 r11 r12 n13)).1.gridVoltage3
        = some (scaleVolt r5) ∧
      (applyScaling inp.now (ensureKwh inp.now ep.kwh_interval node.values)
          (intRecord f0 r1 r2 r3 r4 r5 r6 r7 r8 r9 r10 r11 r12 n13)).1.generatorCurrent1
        = some (scaleCurr r6) ∧
      (applyScaling inp.now (ensureKwh inp.now ep.kwh_interval node.values)
          (intRecord f0 r1 r2 r3 r4 r5 r6 r7 r8 r9 r10 r11 r12 n13)).1.generatorCurrent2
        = some (scaleCurr r7) ∧
      (applyScaling inp.now (ensureKwh inp.now ep.kwh_interval node.values)
          (intRecord f0 r1 r2 r3 r4 r5 r6 r7 r8 r9 r10 r11 r12 n13)).1.gridCurrent1
        = some (scaleCurr r8) ∧
      (applyScaling inp.now (ensureKwh inp.now ep.kwh_interval node.values)
          (intRecord f0 r1 r2 r3 r4 r5 r6 r7 r8 r9 r10 r11 r12 n13)).1.gridCurrent2
        = some (scaleCurr r9) ∧
      (applyScaling inp.now (ensureKwh inp.now ep.kwh_interval node.values)
          (intRecord f0 r1 r2 r3 r4 r5 r6 r7 r8 r9 r10 r11 r12 n13)).1.gridCurrent3
        = some (scaleCurr r10) ∧
      (applyScaling inp.now (ensureKwh inp.now ep.kwh_interval node.values)
          (intRecord f0 r1 r2 r3 r4 r5 r6 r7 r8 r9 r10 r11 r12 n13)).1.currentPower
        = some (scalePower r11) ∧
      (applyScaling inp.now (ensureKwh inp.now ep.kwh_interval node.values)
          (intRecord f0 r1 r2 r3 r4 r5 r6 r7 r8 r9 r10 r11 r12 n13)).1.extra.temp
        = some ((r12:ℚ) / 100) := by
    simp [applyScaling, intRecord, dsGet, pyFloat, pyInt, intReg, hs13, apply_ite]
  obtain ⟨k1, k2, k3, k4, k5, k6, k7, k8, k9, k10, k11, k12⟩ := hsc
  obtain ⟨m1, m2, m3, m4, m5, m6, m7, m8, m9, m10, m11, m12⟩ :=
    dayOrNot_frame inp.now
      (applyScaling inp.now (ensureKwh inp.now ep.kwh_interval node.values)
        (intRecord f0 r1 r2 r3 r4 r5 r6 r7 r8 r9 r10 r11 r12 n13)).1
      inp.dayFetch
      (needDay inp.now ep.kwh_interval
        (applyScaling inp.now (ensureKwh inp.now ep.kwh_interval node.values)
          (intRecord f0 r1 r2 r3 r4 r5 r6 r7 r8 r9 r10 r11 r12 n13)).1)
  exact ⟨m1.trans k1, m2.trans k2, m5.trans k3, m6.trans k4, m7.trans k5,
    m3.trans k6, m4.trans k7, m8.trans k8, m9.trans k9, m10.trans k10,
    m11.trans k11, m12.trans k12⟩

set_option maxRecDepth 10000 in
/-- C5 counterexample: with raw power register 32768 the published power
is 50001 W — `32768/(65535/100000) = 50000.76…` rounds up — not the 50000
the claim asserts. -/
theorem power_register_32768_cex :
    (async_get_datas epDefault (initNode epDefault)
        (CycleInput.mk 0 [some (intRecord (strReg "x") 32768 32768 32768 32768 32768
            16384 16384 16384 16384 16384 32768 2500 4)]
          DayOutcome.err 1)).node.values.currentPower = some 50001 ∧
    some (50001:ℚ) ≠ some (50000:ℚ) := by
  have hs : pyListGet t 4 = some "Feed-in mode" := by decide
  constructor
  · simp [async_get_datas, initNode, _bootstrap_defaults, emptySnapshot, defaultExtra,
      firstValid, _RETRY_PER_POLL, validRecord, intRecord, epDefault, ipBlank, ensureKwh,
      applyScaling, dsGet, pyFloat, pyInt, intReg, strReg, hs, apply_ite, needDay,
      applyDay]
    unfold scalePower roundHalfEven
    norm_num
  · simp

theorem realtime_scaling_formulas_witness :
    (ipBlank epDefault.ip = false ∧
     firstValid [some (intRecord (strReg "x") 32768 32768 32768 32768 32768
        16384 16384 16384 16384 16384 32768 2500 4)]
       = some (intRecord (strReg "x") 32768 32768 32768 32768 32768
          16384 16384 16384 16384 16384 32768 2500 4) ∧
     -168 ≤ (4:ℤ) ∧ (4:ℤ) < 168) ∧
    (async_get_datas epDefault (initNode epDefault)
        (CycleInput.mk 0 [some (intRecord (strReg "x") 32768 32768 32768 32768 32768
            16384 16384 16384 16384 16384 32768 2500 4)]
          DayOutcome.err 1)).node.values.generatorVoltage1
      = some (pyRound3 ((32768:ℚ) / (65535 / 1600))) ∧
    pyRound3 ((32768:ℚ) / (65535 / 1600)) = 800.012 ∧
    (async_get_datas epDefault (initNode epDefault)
        (CycleInput.mk 0 [some (intRecord (strReg "x") 32768 32768 32768 32768 32768
            16384 16384 16384 16384 16384 32768 2500 4)]
          DayOutcome.err 1)).node.values.currentPower
      = some ((roundHalfEven ((32768:ℚ) / (65535 / 100000)) : ℚ)) ∧
    ((roundHalfEven ((32768:ℚ) / (65535 / 100000)) : ℚ)) = 50001 := by
  have hip : ipBlank epDefault.ip = false := by decide
  have hfv : firstValid [some (intRecord (strReg "x") 32768 32768 32768 32768 32768
      16384 16384 16384 16384 16384 32768 2500 4)]
      = some (intRecord (strReg "x") 32768 32768 32768 32768 32768
        16384 16384 16384 16384 16384 32768 2500 4) := by decide
  have h := realtime_scaling_formulas epDefault (initNode epDefault)
    (CycleInput.mk 0 [some (intRecord (strReg "x") 32768 32768 32768 32768 32768
        16384 16384 16384 16384 16384 32768 2500 4)] DayOutcome.err 1)
    (strReg "x") 32768 32768 32768 32768 32768 16384 16384 16384 16384 16384
    32768 2500 4 hip hfv (by norm_num) (by norm_num)
  refine ⟨⟨hip, hfv, by norm_num, by norm_num⟩, h.1, ?_, h.2.2.2.2.2.2.2.2.2.2.1, ?_⟩
  · unfold pyRound3 roundHalfEven
    norm_num
  · unfold roundHalfEven
    norm_num

/-- Once the energy timestamp is present, the cycle-start bootstrap is the
identity. -/
theorem ensureKwh_of_some (now kwh : ℚ) (v : Snapshot) (u : ℚ)
    (h : v.extra.last_kWh_Update = some u) : ensureKwh now kwh v = v := by
  simp only [ensureKwh, h]

/-- `ensureKwh` never touches `energyToday`. -/
theorem ensureKwh_energy (now kwh : ℚ) (v : Snapshot) :
    (ensureKwh now kwh v).energyToday = v.energyToday := by
  unfold ensureKwh
  split <;> simp

/-- The daily-file sub-fetch fails (is swallowed with no snapshot change)
exactly when the outcome is an error/timeout, a non-200 status, a body of
at most 10 characters, fewer than two CR lines, at most 4 columns in the
second line, or an unparsable energy column. -/
def dayBad : DayOutcome → Bool
  | .err => true
  | .resp status textLen lines =>
    !(decide (status = 200) && decide (10 < textLen) && decide (1 < lines.length) &&
      decide (4 < (lines.getD 1 []).length) &&
      (pyFloat (dsGet (lines.getD 1 []) 4)).isSome)

/-- A failed daily sub-fetch leaves the snapshot untouched. -/
theorem applyDay_bad (now : ℚ) (v : Snapshot) (d : DayOutcome)
    (h : dayBad d = true) : applyDay now v d = v := by
  cases d with
  | err => simp [applyDay]
  | resp status textLen lines =>
    simp only [dayBad, Bool.not_eq_true', Bool.and_eq_false_iff] at h
    simp only [applyDay]
    repeat' split
    all_goals (try rfl)
    all_goals (try simp_all [Option.isSome])
    all_goals omega

/-- C8: the daily-energy sub-fetch is isolated — for every cycle whose
realtime fetch succeeded, the failure counter ends at 0 and the interval
at the base interval regardless of the energy outcome, and when the
sub-fetch fails (timeout, non-200, malformed payload) the `energyToday`
already in the snapshot is carried over unchanged. -/
theorem energy_subfetch_isolated (ep : Endpoint) (node : Node) (inp : CycleInput)
    (ds : List Field) (hip : ipBlank ep.ip = false)
    (hfv : firstValid inp.rtAttempts = some ds) (hok : scalingOk ds = true) :
    (async_get_datas ep node inp).node.fail_count = 0 ∧
    (async_get_datas ep node inp).node.work_interval = ep.base_interval ∧
    (dayBad inp.dayFetch = true →
      (async_get_datas ep node inp).node.values.energyToday
        = node.values.energyToday) := by
  obtain ⟨hv, hf, hw, -⟩ := success_cycle ep node inp ds hip hfv hok
  refine ⟨hf, hw, ?_⟩
  intro hbad
  rw [hv]
  have he : (applyScaling inp.now (ensureKwh inp.now ep.kwh_interval node.values)
      ds).1.energyToday = node.values.energyToday :=
    (applyScaling_frame _ _ _).1.trans (ensureKwh_energy _ _ _)
  split
  · rw [applyDay_bad _ _ _ hbad]
    exact he
  · exact he

set_option maxRecDepth 10000 in
theorem energy_subfetch_isolated_witness :
    (ipBlank epDefault.ip = false ∧
     firstValid [some (intRecord (strReg "x") 1 2 3 4 5 6 7 8 9 10 11 12 4)]
       = some (intRecord (strReg "x") 1 2 3 4 5 6 7 8 9 10 11 12 4) ∧
     scalingOk (intRecord (strReg "x") 1 2 3 4 5 6 7 8 9 10 11 12 4) = true ∧
     dayBad (DayOutcome.resp 404 50 []) = true) ∧
    ((async_get_datas epDefault nodeKwh
        (CycleInput.mk 0 [some (intRecord (strReg "x") 1 2 3 4 5 6 7 8 9 10 11 12 4)]
          (DayOutcome.resp 404 50 []) 1)).node.fail_count = 0 ∧
     (async_get_datas epDefault nodeKwh
        (CycleInput.mk 0 [some (intRecord (strReg "x") 1 2 3 4 5 6 7 8 9 10 11 12 4)]
          (DayOutcome.resp 404 50 []) 1)).node.work_interval = epDefault.base_interval ∧
     (async_get_datas epDefault nodeKwh
        (CycleInput.mk 0 [some (intRecord (strReg "x") 1 2 3 4 5 6 7 8 9 10 11 12 4)]
          (DayOutcome.resp 404 50 []) 1)).node.values.energyToday
       = nodeKwh.values.energyToday) := by
  have hip : ipBlank epDefault.ip = false := by decide
  have hfv : firstValid [some (intRecord (strReg "x") 1 2 3 4 5 6 7 8 9 10 11 12 4)]
      = some (intRecord (strReg "x") 1 2 3 4 5 6 7 8 9 10 11 12 4) := by decide
  have hok : scalingOk (intRecord (strReg "x") 1 2 3 4 5 6 7 8 9 10 11 12 4) = true := by
    decide
  have hbad : dayBad (DayOutcome.resp 404 50 []) = true := by decide
  have h := energy_subfetch_isolated epDefault nodeKwh
    (CycleInput.mk 0 [some (intRecord (strReg "x") 1 2 3 4 5 6 7 8 9 10 11 12 4)]
      (DayOutcome.resp 404 50 []) 1)
    (intRecord (strReg "x") 1 2 3 4 5 6 7 8 9 10 11 12 4) hip hfv hok
  exact ⟨⟨hip, hfv, hok, hbad⟩, h.1, h.2.1, h.2.2 hbad⟩

/-- Single-cycle form of the energy gate: on a realtime-successful cycle
over a state whose energy snapshot is populated, the daily file is fetched
iff the refresh interval has elapsed, and a non-fetching cycle preserves
the energy value and its timestamp. -/
theorem gate_single (ep : Endpoint) (node : Node) (inp : CycleInput)
    (ds : List Field) (e T : ℚ) (hip : ipBlank ep.ip = false)
    (he : node.values.energyToday = some e)
    (hT : node.values.extra.last_kWh_Update = some T)
    (hfv : firstValid inp.rtAttempts = some ds) (hok : scalingOk ds = true) :
    ((async_get_datas ep node inp).didFetchDay = true
      ↔ T + ep.kwh_interval ≤ inp.now) ∧
    (¬(T + ep.kwh_interval ≤ inp.now) →
      (async_get_datas ep node inp).node.values.energyToday = some e ∧
      (async_get_datas ep node inp).node.values.extra.last_kWh_Update = some T) := by
  obtain ⟨hv, -, -, hd⟩ := success_cycle ep node inp ds hip hfv hok
  have hek : ensureKwh inp.now ep.kwh_interval node.values = node.values :=
    ensureKwh_of_some inp.now ep.kwh_interval node.values T hT
  have hfr := applyScaling_frame inp.now node.values ds
  have hnd : needDay inp.now ep.kwh_interval (applyScaling inp.now node.values ds).1
      = decide (T + ep.kwh_interval ≤ inp.now) := by
    unfold needDay
    rw [hfr.2, hT, hfr.1, he]
    simp
  rw [hek] at hv hd
  constructor
  · rw [hd, hnd]
    simp
  · intro hlt
    rw [hv, hnd]
    rw [if_neg (by simpa using hlt)]
    exact ⟨hfr.1.trans he, hfr.2.trans hT⟩

/-- C7: on realtime-successful cycles over a state whose energy snapshot
is populated (energy value present, refresh timestamp `T`), the daily
resource is fetched iff the current time is at or past
`T + kwh_interval`; consequently across any run of successful realtime
cycles all strictly before that threshold the daily resource is never
fetched and the stored energy value and timestamp survive unchanged,
while a successful cycle at or past the threshold does fetch it. -/
theorem energy_refresh_gate (ep : Endpoint) (node : Node) (e T : ℚ)
    (hip : ipBlank ep.ip = false)
    (he : node.values.energyToday = some e)
    (hT : node.values.extra.last_kWh_Update = some T) :
    (∀ (inp : CycleInput) (ds : List Field),
       firstValid inp.rtAttempts = some ds → scalingOk ds = true →
       ((async_get_datas ep node inp).didFetchDay = true
         ↔ T + ep.kwh_interval ≤ inp.now)) ∧
    (∀ inps : List CycleInput,
       (∀ inp ∈ inps, inp.now < T + ep.kwh_interval ∧
          ∃ ds, firstValid inp.rtAttempts = some ds ∧ scalingOk ds = true) →
       dayFetchFlags ep node inps = List.replicate inps.length false ∧
       (runCycles ep node inps).values.energyToday = some e ∧
       (runCycles ep node inps).values.extra.last_kWh_Update = some T ∧
       (∀ (inp : CycleInput) (ds : List Field),
          firstValid inp.rtAttempts = some ds → scalingOk ds = true →
          T + ep.kwh_interval ≤ inp.now →
          (async_get_datas ep (runCycles ep node inps) inp).didFetchDay = true)) := by
  have main : ∀ (l : List CycleInput) (nd : Node),
      nd.values.energyToday = some e →
      nd.values.extra.last_kWh_Update = some T →
      (∀ inp ∈ l, inp.now < T + ep.kwh_interval ∧
        ∃ ds, firstValid inp.rtAttempts = some ds ∧ scalingOk ds = true) →
      dayFetchFlags ep nd l = List.replicate l.length false ∧
      (runCycles ep nd l).values.energyToday = some e ∧
      (runCycles ep nd l).values.extra.last_kWh_Update = some T := by
    intro l
    induction l with
    | nil => intro nd h1 h2 _; exact ⟨rfl, h1, h2⟩
    | cons i rest ih =>
      intro nd h1 h2 h3
      obtain ⟨hnow, ds, hfv, hok⟩ := h3 i (List.mem_cons_self i rest)
      have hg := gate_single ep nd i ds e T hip h1 h2 hfv hok
      have hnofetch : (async_get_datas ep nd i).didFetchDay = false := by
        rcases Bool.eq_false_or_eq_true (async_get_datas ep nd i).didFetchDay with h | h
        · exact absurd (hg.1.mp h) (not_le.mpr hnow)
        · exact h
      have hpres := hg.2 (not_le.mpr hnow)
      have hrest := ih (async_get_datas ep nd i).node hpres.1 hpres.2
        (fun inp hm => h3 inp (List.mem_cons_of_mem _ hm))
      refine ⟨?_, hrest.2.1, hrest.2.2⟩
      simp [dayFetchFlags, runCycles, hnofetch, hrest.1, List.replicate_succ]
  constructor
  · intro inp ds hfv hok
    exact (gate_single ep node inp ds e T hip he hT hfv hok).1
  · intro inps hall
    obtain ⟨hflags, hen, hts⟩ := main inps node he hT hall
    refine ⟨hflags, hen, hts, ?_⟩
    intro inp ds hfv hok hthr
    exact (gate_single ep (runCycles ep node inps) inp ds e T hip hen hts
      hfv hok).1.mpr hthr

/-- A node whose energy snapshot is populated: energy 5 kWh read at
time 0. -/
def nodeEnergy : Node :=
  { fail_count := 0, work_interval := 20,
    values := { emptySnapshot with
                energyToday := some 5
                extra.last_kWh_Update := some 0 } }

set_option maxRecDepth 10000 in
theorem energy_refresh_gate_witness :
    (ipBlank epDefault.ip = false ∧
     nodeEnergy.values.energyToday = some 5 ∧
     nodeEnergy.values.extra.last_kWh_Update = some 0) ∧
    ((async_get_datas epDefault nodeEnergy
        (CycleInput.mk 60 [some (intRecord (strReg "x") 1 2 3 4 5 6 7 8 9 10 11 12 4)]
          DayOutcome.err 1)).didFetchDay = true
      ↔ 0 + epDefault.kwh_interval ≤ 60) ∧
    (dayFetchFlags epDefault nodeEnergy
        [CycleInput.mk 60 [some (intRecord (strReg "x") 1 2 3 4 5 6 7 8 9 10 11 12 4)]
          DayOutcome.err 1]
      = List.replicate 1 false ∧
     (runCycles epDefault nodeEnergy
        [CycleInput.mk 60 [some (intRecord (strReg "x") 1 2 3 4 5 6 7 8 9 10 11 12 4)]
          DayOutcome.err 1]).values.energyToday = some 5 ∧
     (runCycles epDefault nodeEnergy
        [CycleInput.mk 60 [some (intRecord (strReg "x") 1 2 3 4 5 6 7 8 9 10 11 12 4)]
          DayOutcome.err 1]).values.extra.last_kWh_Update = some 0) := by
  have hip : ipBlank epDefault.ip = false := by decide
  have he : nodeEnergy.values.energyToday = some 5 := rfl
  have hT : nodeEnergy.values.extra.last_kWh_Update = some 0 := rfl
  have hfv : firstValid [some (intRecord (strReg "x") 1 2 3 4 5 6 7 8 9 10 11 12 4)]
      = some (intRecord (strReg "x") 1 2 3 4 5 6 7 8 9 10 11 12 4) := by decide
  have hok : scalingOk (intRecord (strReg "x") 1 2 3 4 5 6 7 8 9 10 11 12 4) = true := by
    decide
  have h := energy_refresh_gate epDefault nodeEnergy 5 0 hip he hT
  have hall : ∀ inp ∈ [CycleInput.mk 60
      [some (intRecord (strReg "x") 1 2 3 4 5 6 7 8 9 10 11 12 4)] DayOutcome.err 1],
      inp.now < 0 + epDefault.kwh_interval ∧
      ∃ ds, firstValid inp.rtAttempts = some ds ∧ scalingOk ds = true := by
    intro inp hm
    rw [List.mem_singleton] at hm
    subst hm
    exact ⟨by norm_num [epDefault], _, hfv, hok⟩
  obtain ⟨hflags, hen, hts, -⟩ := h.2 _ hall
  exact ⟨⟨hip, he, hT⟩,
    h.1 (CycleInput.mk 60 [some (intRecord (strReg "x") 1 2 3 4 5 6 7 8 9 10 11 12 4)]
      DayOutcome.err 1) _ hfv hok, hflags, hen, hts⟩

/-- A failure cycle increments the counter and backs off from the
pre-cycle interval (no valid record case). -/
theorem failure_step_eq (ep : Endpoint) (node : Node) (inp : CycleInput)
    (hip : ipBlank ep.ip = false) (hfv : firstValid inp.rtAttempts = none) :
    (async_get_datas ep node inp).node.fail_count = node.fail_count + 1 ∧
    (async_get_datas ep node inp).node.work_interval
      = _apply_backoff node.work_interval (node.fail_count + 1) inp.jitter := by
  simp [async_get_datas, _bootstrap_defaults, hip, hfv]

/-- Arithmetic core of the three-failure growth property: three clamped
backoff steps with jitters at least `0.85` from a base below
`102 = (1 - 0.15) * 120` end strictly above the base. -/
theorem backoff_growth (c0 w1 w2 w3 : ℚ) (hc : c0 < 102)
    (hA : 17/20 * min 120 (max 5 c0) ≤ w1) (h15 : 5 ≤ w1)
    (hB : 17/20 * min 120 (max 5 (w1 * 2)) ≤ w2) (h25 : 5 ≤ w2)
    (hC : 17/20 * min 120 (max 5 (w2 * 4)) ≤ w3) :
    c0 < w3 := by
  rw [max_eq_right (by linarith : (5:ℚ) ≤ w1 * 2)] at hB
  rw [max_eq_right (by linarith : (5:ℚ) ≤ w2 * 4)] at hC
  rcases le_or_lt 120 (w2 * 4) with h4 | h4
  · rw [min_eq_left h4] at hC
    linarith
  · rw [min_eq_right (le_of_lt h4)] at hC
    rcases le_or_lt 120 (w1 * 2) with h2 | h2
    · rw [min_eq_left h2] at hB
      linarith
    · rw [min_eq_right (le_of_lt h2)] at hB
      rcases le_or_lt c0 5 with hc5 | hc5
      · linarith
      · rw [max_eq_right (le_of_lt hc5), min_eq_right (by linarith : c0 ≤ 120)] at hA
        linarith

/-- A cycle whose every realtime attempt times out, with the jitter draw
at the bottom of its range. -/
def failCycle : CycleInput := CycleInput.mk 0 [none, none] DayOutcome.err (17/20)

/-- C10 counterexample: with a configured base interval of 110 s and three
timed-out cycles whose jitter draws are all `0.85`, the failure counter
reaches 3 but the interval ends at `102 = (1 - 0.15) * 120`, which is
**not** strictly greater than the base interval. -/
theorem three_failures_base110_cex :
    (runCycles (Endpoint.mk (some "192.168.178.112") 110 120)
        (initNode (Endpoint.mk (some "192.168.178.112") 110 120))
        [failCycle, failCycle, failCycle]).fail_count = 3 ∧
    (runCycles (Endpoint.mk (some "192.168.178.112") 110 120)
        (initNode (Endpoint.mk (some "192.168.178.112") 110 120))
        [failCycle, failCycle, failCycle]).work_interval = 102 ∧
    ¬((Endpoint.mk (some "192.168.178.112") 110 120).base_interval
        < (runCycles (Endpoint.mk (some "192.168.178.112") 110 120)
            (initNode (Endpoint.mk (some "192.168.178.112") 110 120))
            [failCycle, failCycle, failCycle]).work_interval) := by
  have hstep : ∀ (node : Node),
      (async_get_datas (Endpoint.mk (some "192.168.178.112") 110 120) node
        failCycle).node.fail_count = node.fail_count + 1 ∧
      (async_get_datas (Endpoint.mk (some "192.168.178.112") 110 120) node
        failCycle).node.work_interval
        = _apply_backoff node.work_interval (node.fail_count + 1) (17/20) :=
    fun node => failure_step_eq _ node failCycle (by decide) (by decide)
  have e1 := hstep (initNode (Endpoint.mk (some "192.168.178.112") 110 120))
  have e2 := hstep (async_get_datas (Endpoint.mk (some "192.168.178.112") 110 120)
    (initNode (Endpoint.mk (some "192.168.178.112") 110 120)) failCycle).node
  have e3 := hstep (async_get_datas (Endpoint.mk (some "192.168.178.112") 110 120)
    (async_get_datas (Endpoint.mk (some "192.168.178.112") 110 120)
      (initNode (Endpoint.mk (some "192.168.178.112") 110 120)) failCycle).node
    failCycle).node
  have hrun : runCycles (Endpoint.mk (some "192.168.178.112") 110 120)
      (initNode (Endpoint.mk (some "192.168.178.112") 110 120))
      [failCycle, failCycle, failCycle]
      = (async_get_datas (Endpoint.mk (some "192.168.178.112") 110 120)
          (async_get_datas (Endpoint.mk (some "192.168.178.112") 110 120)
            (async_get_datas (Endpoint.mk (some "192.168.178.112") 110 120)
              (initNode (Endpoint.mk (some "192.168.178.112") 110 120)) failCycle).node
            failCycle).node failCycle).node := rfl
  have hf0 : (initNode (Endpoint.mk (some "192.168.178.112") 110 120)).fail_count = 0 :=
    rfl
  have hw0 : (initNode (Endpoint.mk
      (some "192.168.178.112") 110 120)).work_interval = 110 := rfl
  rw [hf0, hw0] at e1
  rw [e1.1, e1.2] at e2
  rw [e2.1, e2.2] at e3
  have hb1 : _apply_backoff 110 (0 + 1) (17/20) = 187/2 := by
    rw [apply_backoff_eq]
    norm_num [min_def, max_def]
  rw [hb1] at e2 e3
  have hb2 : _apply_backoff (187/2) (0 + 1 + 1) (17/20) = 102 := by
    rw [apply_backoff_eq]
    norm_num [min_def, max_def]
  rw [hb2] at e3
  have hb3 : _apply_backoff 102 (0 + 1 + 1 + 1) (17/20) = 102 := by
    rw [apply_backoff_eq]
    norm_num [min_def, max_def]
  rw [hb3] at e3
  rw [hrun, e3.1, e3.2]
  norm_num

/-- C10 amended: starting from a fresh state, **provided the configured
base interval is below `102 = (1 - 0.15) * 120`**, three consecutive
failing cycles (jitter draws anywhere in `[0.85, 1.15]`) leave the failure
counter at 3 and the interval strictly greater than the base and at most
120; one subsequent cycle with a valid 14-field realtime fetch resets the
counter to 0 and the interval to exactly the base. -/
theorem three_failures_then_success (ep : Endpoint) (i1 i2 i3 i4 : CycleInput)
    (ds : List Field) (hip : ipBlank ep.ip = false)
    (hbase : ep.base_interval < 102)
    (h1 : firstValid i1.rtAttempts = none)
    (hj1a : 17/20 ≤ i1.jitter) (hj1b : i1.jitter ≤ 23/20)
    (h2 : firstValid i2.rtAttempts = none)
    (hj2a : 17/20 ≤ i2.jitter) (hj2b : i2.jitter ≤ 23/20)
    (h3 : firstValid i3.rtAttempts = none)
    (hj3a : 17/20 ≤ i3.jitter) (hj3b : i3.jitter ≤ 23/20)
    (h4 : firstValid i4.rtAttempts = some ds) (hok : scalingOk ds = true) :
    (runCycles ep (initNode ep) [i1, i2, i3]).fail_count = 3 ∧
    ep.base_interval < (runCycles ep (initNode ep) [i1, i2, i3]).work_interval ∧
    (runCycles ep (initNode ep) [i1, i2, i3]).work_interval ≤ 120 ∧
    (async_get_datas ep (runCycles ep (initNode ep) [i1, i2, i3]) i4).node.fail_count
      = 0 ∧
    (async_get_datas ep (runCycles ep (initNode ep) [i1, i2, i3]) i4).node.work_interval
      = ep.base_interval := by
  have e1 := failure_step_eq ep (initNode ep) i1 hip h1
  have e2 := failure_step_eq ep (async_get_datas ep (initNode ep) i1).node i2 hip h2
  have e3 := failure_step_eq ep
    (async_get_datas ep (async_get_datas ep (initNode ep) i1).node i2).node i3 hip h3
  have hrun : runCycles ep (initNode ep) [i1, i2, i3]
      = (async_get_datas ep
          (async_get_datas ep (async_get_datas ep (initNode ep) i1).node i2).node
          i3).node := rfl
  have hf0 : (initNode ep).fail_count = 0 := rfl
  have hw0 : (initNode ep).work_interval = ep.base_interval := rfl
  rw [hf0, hw0] at e1
  rw [e1.1, e1.2] at e2
  rw [e2.1, e2.2] at e3
  have m1 := apply_backoff_mem ep.base_interval (0 + 1) i1.jitter
  have m2 := apply_backoff_mem (_apply_backoff ep.base_interval (0 + 1) i1.jitter)
    (0 + 1 + 1) i2.jitter
  have m3 := apply_backoff_mem (_apply_backoff
    (_apply_backoff ep.base_interval (0 + 1) i1.jitter) (0 + 1 + 1) i2.jitter)
    (0 + 1 + 1 + 1) i3.jitter
  have lb1 := apply_backoff_lb ep.base_interval (0 + 1) i1.jitter hj1a
  have lb2 := apply_backoff_lb (_apply_backoff ep.base_interval (0 + 1) i1.jitter)
    (0 + 1 + 1) i2.jitter hj2a
  have lb3 := apply_backoff_lb (_apply_backoff
    (_apply_backoff ep.base_interval (0 + 1) i1.jitter) (0 + 1 + 1) i2.jitter)
    (0 + 1 + 1 + 1) i3.jitter hj3a
  norm_num at lb1 lb2 lb3
  have hgrow := backoff_growth ep.base_interval
    (_apply_backoff ep.base_interval (0 + 1) i1.jitter)
    (_apply_backoff (_apply_backoff ep.base_interval (0 + 1) i1.jitter)
      (0 + 1 + 1) i2.jitter)
    (_apply_backoff (_apply_backoff
      (_apply_backoff ep.base_interval (0 + 1) i1.jitter) (0 + 1 + 1) i2.jitter)
      (0 + 1 + 1 + 1) i3.jitter)
    hbase lb1 m1.1 lb2 m2.1 lb3
  obtain ⟨-, hsf, hsw, -⟩ := success_cycle ep (runCycles ep (initNode ep) [i1, i2, i3])
    i4 ds hip h4 hok
  rw [hrun, e3.1, e3.2]
  refine ⟨rfl, hgrow, m3.2, ?_, ?_⟩
  · rw [← hrun]
    exact hsf
  · rw [← hrun]
    exact hsw

set_option maxRecDepth 10000 in
theorem three_failures_then_success_witness :
    (ipBlank epDefault.ip = false ∧ epDefault.base_interval < 102 ∧
     firstValid failCycle.rtAttempts = none ∧
     (17/20 ≤ failCycle.jitter ∧ failCycle.jitter ≤ 23/20) ∧
     firstValid [some (intRecord (strReg "x") 1 2 3 4 5 6 7 8 9 10 11 12 4)]
       = some (intRecord (strReg "x") 1 2 3 4 5 6 7 8 9 10 11 12 4) ∧
     scalingOk (intRecord (strReg "x") 1 2 3 4 5 6 7 8 9 10 11 12 4) = true) ∧
    ((runCycles epDefault (initNode epDefault)
        [failCycle, failCycle, failCycle]).fail_count = 3 ∧
     epDefault.base_interval
       < (runCycles epDefault (initNode epDefault)
           [failCycle, failCycle, failCycle]).work_interval ∧
     (runCycles epDefault (initNode epDefault)
        [failCycle, failCycle, failCycle]).work_interval ≤ 120 ∧
     (async_get_datas epDefault
        (runCycles epDefault (initNode epDefault) [failCycle, failCycle, failCycle])
        (CycleInput.mk 0 [some (intRecord (strReg "x") 1 2 3 4 5 6 7 8 9 10 11 12 4)]
          DayOutcome.err 1)).node.fail_count = 0 ∧
     (async_get_datas epDefault
        (runCycles epDefault (initNode epDefault) [failCycle, failCycle, failCycle])
        (CycleInput.mk 0 [some (intRecord (strReg "x") 1 2 3 4 5 6 7 8 9 10 11 12 4)]
          DayOutcome.err 1)).node.work_interval = epDefault.base_interval) := by
  have hip : ipBlank epDefault.ip = false := by decide
  have hbase : epDefault.base_interval < 102 := by norm_num [epDefault]
  have hfc : firstValid failCycle.rtAttempts = none := by decide
  have hja : (17:ℚ)/20 ≤ failCycle.jitter := by norm_num [failCycle]
  have hjb : failCycle.jitter ≤ (23:ℚ)/20 := by norm_num [failCycle]
  have hfv : firstValid [some (intRecord (strReg "x") 1 2 3 4 5 6 7 8 9 10 11 12 4)]
      = some (intRecord (strReg "x") 1 2 3 4 5 6 7 8 9 10 11 12 4) := by decide
  have hok : scalingOk (intRecord (strReg "x") 1 2 3 4 5 6 7 8 9 10 11 12 4) = true := by
    decide
  exact ⟨⟨hip, hbase, hfc, ⟨hja, hjb⟩, hfv, hok⟩,
    three_failures_then_success epDefault failCycle failCycle failCycle
      (CycleInput.mk 0 [some (intRecord (strReg "x") 1 2 3 4 5 6 7 8 9 10 11 12 4)]
        DayOutcome.err 1)
      (intRecord (strReg "x") 1 2 3 4 5 6 7 8 9 10 11 12 4)
      hip hbase hfc hja hjb hfc hja hjb hfc hja hjb hfv hok⟩

end Kaco
